import Mathlib

/-!
Verification of the period-tracker repository's cycle statistics and
calendar classification logic, together with two backend controller paths
(symptom-date clamping and cycle deletion).

Dates are modelled as integer day numbers (days since 1970-01-01, the
JavaScript epoch divided by 86 400 000 ms).  `new Date(y, m, d)` with a
0-based month is `jsDate y m d`; `Date.prototype.getDay` (0 = Sunday) is
`getDay`.  An invalid `Date` (NaN timestamp) is modelled as `none`.
-/

namespace Greta

/-- Days from civil date (1-based month in 1..12) to the 1970-01-01 epoch,
using the standard civil-calendar algorithm. -/
def daysFromCivil (y m d : ℤ) : ℤ :=
  let y' : ℤ := if m ≤ 2 then y - 1 else y
  let era : ℤ := Int.fdiv y' 400
  let yoe : ℤ := y' - era * 400
  let doy : ℤ := (153 * (if 2 < m then m - 3 else m + 9) + 2).ediv 5 + d - 1
  let doe : ℤ := yoe * 365 + yoe.ediv 4 - yoe.ediv 100 + doy
  era * 146097 + doe - 719468

/-- Model of `new Date(year, month, day)` with JavaScript's 0-based `month`;
month overflow (e.g. month 12) and day overflow/underflow (e.g. day 0)
normalize exactly as in JavaScript. -/
def jsDate (year month day : ℤ) : ℤ :=
  daysFromCivil (year + Int.fdiv month 12) (Int.fmod month 12 + 1) 1 + (day - 1)

/-- Model of `Date.prototype.getDay`: 0 = Sunday, …, 6 = Saturday.
Day number 0 (1970-01-01) was a Thursday. -/
def getDay (t : ℤ) : ℤ :=
  (t + 4) % 7

/-- ISO weekday (1 = Monday, …, 7 = Sunday), used to state the spec's
"(weekday of the first day of the month − 1) mod 7" formula. -/
def isoWeekday (t : ℤ) : ℤ :=
  if getDay t = 0 then 7 else getDay t

/-! ## Calendar view component (calendar-view.component.ts)

`CycleWithSymptoms` keeps only the fields read by the calendar logic:
`cycleId`, `startDate`, `endDate` (the classifier never reads the
symptom list or notes).  A date that failed to parse (`isNaN(getTime())`)
is `none`. -/

structure CycleWithSymptoms where
  cycleId : ℤ
  startDate : Option ℤ
  endDate : Option ℤ
deriving DecidableEq

/-- Result record built by `getDayInfo` (the local `result` object). -/
structure DayInfo where
  isPeriod : Bool
  isFertile : Bool
  isOvulation : Bool
  cycleId : Option ℤ
deriving DecidableEq

/-- Model of `isSameDay`: both dates valid and the same calendar day.  In the
day-number model two valid dates are the same day iff they are equal. -/
def isSameDay (a b : ℤ) : Bool :=
  a == b

/-- Model of `calculateOvulationDate`: 14 days after the cycle's start date,
`none` when the start date is invalid. -/
def calculateOvulationDate (cycle : CycleWithSymptoms) : Option ℤ :=
  match cycle.startDate with
  | none => none
  | some startDate => some (startDate + 14)

/-- One iteration of the `for (const cycle of this.cycles)` loop in
`getDayInfo`, updating the mutable `result` record:
period-range check (sets `isPeriod` and overwrites `cycleId`), fertile
window `[ovDate − 5, ovDate]`, ovulation day (which clears `isFertile`),
and fertility-based `cycleId` attribution only when `cycleId` is unset.
A cycle with an invalid start or end date is skipped (`continue`). -/
def getDayInfoStep (date : ℤ) (result : DayInfo) (cycle : CycleWithSymptoms) : DayInfo :=
  match cycle.startDate, cycle.endDate with
  | some start, some stop =>
    let r1 := if start ≤ date ∧ date ≤ stop then
        { result with isPeriod := true, cycleId := some cycle.cycleId }
      else result
    match calculateOvulationDate cycle with
    | none => r1
    | some ovDate =>
      let fertileStart := ovDate - 5
      let r2 := if fertileStart ≤ date ∧ date ≤ ovDate then { r1 with isFertile := true } else r1
      let r3 := if isSameDay date ovDate then { r2 with isOvulation := true, isFertile := false }
        else r2
      if r3.cycleId = none ∧ (r3.isFertile = true ∨ r3.isOvulation = true) then
        { r3 with cycleId := some cycle.cycleId }
      else r3
  | _, _ => result

/-- Model of `getDayInfo`: classify one date against the cycle list (the early
return for an empty list coincides with folding over `[]`). -/
def getDayInfo (date : ℤ) (cycles : List CycleWithSymptoms) : DayInfo :=
  cycles.foldl (getDayInfoStep date) ⟨false, false, false, none⟩

/-- The method `getDayInfo` seen against the component state (`this.cycles`):
it reads the state and returns it unchanged, never assigning to it. -/
def getDayInfoSt (cycles : List CycleWithSymptoms) (date : ℤ) :
    DayInfo × List CycleWithSymptoms :=
  (getDayInfo date cycles, cycles)

/-- A cell of the calendar grid (`CalendarDay`). -/
structure CalendarDay where
  day : Option ℤ
  date : Option ℤ
  active : Bool
  isPeriod : Bool
  isFertile : Bool
  isOvulation : Bool
  isToday : Bool
  cycleId : Option ℤ
deriving DecidableEq

/-- Model of `createEmptyCell`. -/
def createEmptyCell : CalendarDay :=
  { day := none, date := none, active := false, isPeriod := false, isFertile := false,
    isOvulation := false, isToday := false, cycleId := none }

/-- Model of `lastDay.getDate()` where `lastDay = new Date(year, month + 1, 0)`:
the day-of-month of the last day of `month`, i.e. the month's length. -/
def daysInMonth (year month : ℤ) : ℤ :=
  jsDate year (month + 1) 0 - jsDate year month 1 + 1

/-- The leading-cell offset: `firstDay.getDay() - 1`, wrapping Sunday
(`-1`) to 6, so that the week starts on Monday. -/
def gridOffset (year month : ℤ) : ℤ :=
  let o := getDay (jsDate year month 1) - 1
  if o < 0 then 6 else o

/-- The grid cell pushed for day-of-month `d` in `generateCalendarGrid`. -/
def mkDayCell (cycles : List CycleWithSymptoms) (today year month d : ℤ) : CalendarDay :=
  let date := jsDate year month d
  let info := getDayInfo date cycles
  { day := some d, date := some date,
    active := info.isPeriod || info.isFertile || info.isOvulation,
    isPeriod := info.isPeriod, isFertile := info.isFertile, isOvulation := info.isOvulation,
    isToday := isSameDay date today, cycleId := info.cycleId }

/-- Model of `generateCalendarGrid` for a given year, 0-based month, cycle list and
today's date: `offset` leading empty cells, one cell per day of the month
(the `isNaN` guard never fires on a real date), then empty cells until the
grid length reaches `Math.ceil((offset + daysInMonth) / 7) * 7`.  The
`while` loop adds `max 0 (total − (offset + daysInMonth))` cells, which is
Nat subtraction. -/
def generateCalendarGrid (year month : ℤ) (cycles : List CycleWithSymptoms) (today : ℤ) :
    List CalendarDay :=
  let n : ℕ := (daysInMonth year month).toNat
  let off : ℕ := (gridOffset year month).toNat
  let dayCells := (List.range n).map (fun (i : ℕ) => mkDayCell cycles today year month ((i : ℤ) + 1))
  let total : ℕ := ((off + n + 6) / 7) * 7
  List.replicate off createEmptyCell ++ dayCells ++
    List.replicate (total - (off + n)) createEmptyCell

/-! ## Dashboard statistics (DashboardPageComponent.calculateStats)

The dashboard reads each cycle's start and end through
`new Date(...).valueOf()`; on day numbers `Math.round((end−start)/86400000)`
is the exact day difference.  `Math.round` on the (exact rational) averages
is `⌊x + 1/2⌋`, which matches JavaScript's round-half-toward-+∞. -/

structure StatCycle where
  startDate : ℤ
  endDate : ℤ
deriving DecidableEq

/-- Model of `Math.round`: nearest integer, halves toward +∞. -/
def jsRound (x : ℚ) : ℤ :=
  ⌊x + 1 / 2⌋

/-- The sort order used by `sort((a, b) => a.startDate - b.startDate)`. -/
def byStart (a b : StatCycle) : Prop :=
  a.startDate ≤ b.startDate

instance : DecidableRel byStart := fun a b =>
  inferInstanceAs (Decidable (a.startDate ≤ b.startDate))

/-- Model of `calculateStats`: returns
`(averagePeriodLength, averageCycleLength)`, each `none` when the code
leaves the field `undefined`. -/
def calculateStats (cycles : List StatCycle) : Option ℤ × Option ℤ :=
  if cycles.length = 0 then (none, none)
  else
    let periodLengths : List ℤ := cycles.map fun c => c.endDate - c.startDate + 1
    let averagePeriodLength :=
      jsRound ((periodLengths.sum : ℚ) / (periodLengths.length : ℚ))
    let averageCycleLength : Option ℤ :=
      if 1 < cycles.length then
        let sorted := List.insertionSort byStart cycles
        let diffs : List ℤ :=
          List.zipWith (fun c p => c.startDate - p.startDate) (sorted.drop 1) sorted
        some (jsRound ((diffs.sum : ℚ) / (diffs.length : ℚ)))
      else none
    (some averagePeriodLength, averageCycleLength)

/-- Arithmetic mean of a list of integers, rounded to nearest
(the spec's "arithmetic mean … rounded to nearest integer"). -/
def meanRounded (l : List ℤ) : ℤ :=
  jsRound ((l.sum : ℚ) / (l.length : ℚ))

/-- Sort a list of integers ascending. -/
def sortInts (l : List ℤ) : List ℤ :=
  List.insertionSort (· ≤ ·) l

/-- Day-differences between consecutive elements. -/
def consecutiveDiffs (l : List ℤ) : List ℤ :=
  List.zipWith (fun a b => a - b) l.tail l

/-! ## Backend: CyclesController (CycleController.cs) -/

/-- A symptom entry as submitted in `CreateCycleDto` / `UpdateCycleDTO`. -/
structure CycleSymptomDto where
  symptomId : ℤ
  intensity : ℤ
  date : ℤ
deriving DecidableEq

/-- Model of `CreateCycleDto` (the `UpdateCycleDTO` adds `cycleId`, which is
irrelevant to the clamping logic shared by both actions). -/
structure CreateCycleDto where
  userId : ℤ
  startDate : ℤ
  endDate : ℤ
  symptoms : List CycleSymptomDto
deriving DecidableEq

/-- A persisted `CycleSymptom` row (creation timestamp omitted). -/
structure CycleSymptom where
  cycleId : ℤ
  symptomId : ℤ
  intensity : ℤ
  date : ℤ
deriving DecidableEq

/-- The two sequential range guards applied to a submitted symptom date in
`CreateCycle` and `UpdateCycle` before persistence. -/
def clampSymptomDate (date startDate endDate : ℤ) : ℤ :=
  let d1 := if date < startDate then startDate else date
  if endDate < d1 then endDate else d1

/-- The symptom rows persisted for a cycle from the submitted DTO. -/
def persistedSymptoms (cycleId : ℤ) (dto : CreateCycleDto) : List CycleSymptom :=
  dto.symptoms.map fun s =>
    { cycleId := cycleId, symptomId := s.symptomId, intensity := s.intensity,
      date := clampSymptomDate s.date dto.startDate dto.endDate }

/-- Model of `CreateCycle`, up to symptom persistence: `none` models the 403 (user
mismatch) and 400 (end before start) early returns, on which nothing is
stored; `some rows` is the list of symptom rows inserted for the new
cycle id. -/
def createCycle (callerId cycleId : ℤ) (dto : CreateCycleDto) : Option (List CycleSymptom) :=
  if callerId ≠ dto.userId then none
  else if dto.endDate < dto.startDate then none
  else some (persistedSymptoms cycleId dto)

/-- Model of `UpdateCycle`, up to symptom persistence: same guards and the same
clamping loop as `CreateCycle` (ids checks elided as they do not touch
the clamping), inserting rows for the updated cycle id. -/
def updateCycle (callerId cycleId : ℤ) (dto : CreateCycleDto) : Option (List CycleSymptom) :=
  if callerId ≠ dto.userId then none
  else if dto.endDate < dto.startDate then none
  else some (persistedSymptoms cycleId dto)

/-! ### DeleteCycle (C10): store-level model -/

/-- A persisted cycle row (only the fields `DeleteCycle` reads). -/
structure StoredCycle where
  cycleId : ℤ
  userId : ℤ
deriving DecidableEq

/-- A persisted symptom row keyed by its owning cycle. -/
structure StoredSymptom where
  cycleSymptomId : ℤ
  cycleId : ℤ
deriving DecidableEq

/-- The database state visible to `DeleteCycle`. -/
structure Store where
  cycles : List StoredCycle
  symptoms : List StoredSymptom
deriving DecidableEq

/-- Model of `PeriodCycleRepository.GetById`:
`SELECT * FROM PeriodCycle WHERE cycle_id = @id`, returning the first
matching row or null. -/
def getById (st : Store) (id : ℤ) : Option StoredCycle :=
  st.cycles.find? fun c => c.cycleId == id

/-- Model of `CycleSymptomRepository.DeleteCycleSymptomsByCycleId`:
`DELETE FROM CycleSymptoms WHERE cycle_id = @cycleId`. -/
def deleteCycleSymptomsByCycleId (st : Store) (cycleId : ℤ) : Store :=
  { st with symptoms := st.symptoms.filter fun s => ¬ s.cycleId = cycleId }

/-- Model of `PeriodCycleRepository.DeleteCycle id userId`:
`DELETE FROM PeriodCycle WHERE cycle_id = @id AND user_id = @userId`,
returning `DeleteData`'s flag, which is true whenever the command runs
without a database exception — even when zero rows match.  Database I/O
exceptions are outside this embedding, so the flag is `true`. -/
def deleteCycleRepo (st : Store) (id userId : ℤ) : Bool × Store :=
  (true, { st with cycles := st.cycles.filter fun c => ¬ (c.cycleId = id ∧ c.userId = userId) })

/-- HTTP outcomes of `DeleteCycle`. -/
inductive DeleteStatus where
  | noContent204
  | notFound404
  | forbidden403
  | badRequest400
deriving DecidableEq

/-- Model of `DeleteCycle`: look up the cycle, 404 when absent, 403 when owned by
another user, otherwise delete the cycle's symptoms and then the cycle. -/
def deleteCycleAction (st : Store) (callerId id : ℤ) : DeleteStatus × Store :=
  match getById st id with
  | none => (.notFound404, st)
  | some existing =>
    if existing.userId ≠ callerId then (.forbidden403, st)
    else
      let st1 := deleteCycleSymptomsByCycleId st id
      let res := deleteCycleRepo st1 id callerId
      if ¬ res.1 = true then (.badRequest400, res.2) else (.noContent204, res.2)

/-! ## Claims -/

/-- C9: Day classification is a pure function of its inputs: classifying a
date twice against the same component state yields identical results, and
the classification leaves the cycle list unchanged. -/
theorem classification_pure (date : ℤ) (cycles : List CycleWithSymptoms) :
    (getDayInfoSt cycles date).1 = (getDayInfoSt (getDayInfoSt cycles date).2 date).1 ∧
    (getDayInfoSt cycles date).2 = cycles ∧
    (getDayInfoSt (getDayInfoSt cycles date).2 date).2 = cycles :=
  ⟨rfl, rfl, rfl⟩

/-- C4: `averagePeriodLengthDays` is undefined iff the cycle list is empty,
and on the empty list both statistics are undefined. -/
theorem averagePeriod_undefined_iff_empty (cycles : List StatCycle) :
    ((calculateStats cycles).1 = none ↔ cycles = []) ∧
    (cycles = [] → calculateStats cycles = (none, none)) := by
  rcases cycles with _ | ⟨a, l⟩ <;> simp [calculateStats]

/-- C4 witness: the empty list yields `(none, none)` and a one-element list
has a defined average period length. -/
theorem averagePeriod_undefined_iff_empty_witness :
    calculateStats ([] : List StatCycle) = (none, none) ∧
    ¬ (calculateStats [⟨0, 0⟩]).1 = none :=
  ⟨(averagePeriod_undefined_iff_empty []).2 rfl,
   fun h => by simpa using (averagePeriod_undefined_iff_empty [⟨0, 0⟩]).1.mp h⟩

/-- C7: a cycle whose start or end date is invalid is skipped: the day
classification is the one computed with that cycle absent from the list,
wherever it sits in the scan. -/
theorem invalid_cycle_skipped (date : ℤ) (pre post : List CycleWithSymptoms)
    (c : CycleWithSymptoms) (h : c.startDate = none ∨ c.endDate = none) :
    getDayInfo date (pre ++ c :: post) = getDayInfo date (pre ++ post) := by
  unfold getDayInfo
  rw [List.foldl_append, List.foldl_append, List.foldl_cons]
  congr 1
  obtain ⟨id, sd, ed⟩ := c
  cases sd <;> cases ed <;> simp_all [getDayInfoStep]

/-- C7 witness: a cycle with an unparsable start date does not change the
classification of 1970-01-01 against a remaining valid cycle. -/
theorem invalid_cycle_skipped_witness :
    getDayInfo 0 [⟨2, none, some 3⟩, ⟨1, some 0, some 2⟩] =
      getDayInfo 0 [⟨1, some 0, some 2⟩] :=
  invalid_cycle_skipped 0 [] [⟨1, some 0, some 2⟩] ⟨2, none, some 3⟩ (Or.inl rfl)

/-- C8: every symptom occurrence submitted through cycle creation or update
is stored with its date clamped into `[startDate, endDate]`: dates before
the start become the start, dates after the end become the end, and
in-range dates are stored unchanged. -/
theorem symptom_dates_clamped (caller cid : ℤ) (dto : CreateCycleDto)
    (stored : List CycleSymptom)
    (h : createCycle caller cid dto = some stored ∨
         updateCycle caller cid dto = some stored) :
    ∀ s ∈ dto.symptoms,
      (⟨cid, s.symptomId, s.intensity,
        clampSymptomDate s.date dto.startDate dto.endDate⟩ : CycleSymptom) ∈ stored ∧
      dto.startDate ≤ clampSymptomDate s.date dto.startDate dto.endDate ∧
      clampSymptomDate s.date dto.startDate dto.endDate ≤ dto.endDate ∧
      (s.date < dto.startDate →
        clampSymptomDate s.date dto.startDate dto.endDate = dto.startDate) ∧
      (dto.endDate < s.date →
        clampSymptomDate s.date dto.startDate dto.endDate = dto.endDate) ∧
      (dto.startDate ≤ s.date → s.date ≤ dto.endDate →
        clampSymptomDate s.date dto.startDate dto.endDate = s.date) := by
  have hk : dto.startDate ≤ dto.endDate ∧ stored = persistedSymptoms cid dto := by
    rcases h with h | h <;>
    · simp only [createCycle, updateCycle] at h
      split_ifs at h with h1 h2
      exact ⟨by omega, (Option.some_injective _ h.symm)⟩
  intro s hs
  refine ⟨hk.2 ▸ List.mem_map.mpr ⟨s, hs, rfl⟩, ?_, ?_, ?_, ?_, ?_⟩ <;>
  · have := hk.1
    simp only [clampSymptomDate]
    split_ifs <;> omega

/-- C8 witness: creating a cycle `[10, 20]` with submitted symptom dates 5
(too early), 25 (too late) and 15 (in range) stores them at 10, 20, 15. -/
theorem symptom_dates_clamped_witness :
    (⟨99, 1, 3, clampSymptomDate 5 10 20⟩ : CycleSymptom) ∈
      ([⟨99, 1, 3, 10⟩, ⟨99, 2, 4, 20⟩, ⟨99, 3, 5, 15⟩] : List CycleSymptom) ∧
    clampSymptomDate 5 10 20 = 10 ∧ clampSymptomDate 25 10 20 = 20 ∧
    clampSymptomDate 15 10 20 = 15 := by
  have h1 := symptom_dates_clamped 7 99 ⟨7, 10, 20, [⟨1, 3, 5⟩, ⟨2, 4, 25⟩, ⟨3, 5, 15⟩]⟩
    [⟨99, 1, 3, 10⟩, ⟨99, 2, 4, 20⟩, ⟨99, 3, 5, 15⟩] (Or.inl (by decide))
  refine ⟨(h1 ⟨1, 3, 5⟩ (by decide)).1, (h1 ⟨1, 3, 5⟩ (by decide)).2.2.2.1 (by decide),
    (h1 ⟨2, 4, 25⟩ (by decide)).2.2.2.2.1 (by decide),
    (h1 ⟨3, 5, 15⟩ (by decide)).2.2.2.2.2 (by decide) (by decide)⟩

/-- C10: deleting a cycle that exists but belongs to another user returns
403 Forbidden with the store unchanged (neither the cycle nor its symptom
rows are deleted), and any invocation that changes the store was for an
existing cycle owned by the caller. -/
theorem delete_forbidden_leaves_store (st : Store) (caller id : ℤ) :
    (∀ c, getById st id = some c → c.userId ≠ caller →
      deleteCycleAction st caller id = (.forbidden403, st)) ∧
    ((deleteCycleAction st caller id).2 ≠ st →
      ∃ c, getById st id = some c ∧ c.userId = caller) := by
  constructor
  · intro c hc hne
    simp [deleteCycleAction, hc, hne]
  · intro hchanged
    unfold deleteCycleAction at hchanged
    rcases hg : getById st id with _ | c
    · rw [hg] at hchanged; simp at hchanged
    · rw [hg] at hchanged
      by_cases hu : c.userId = caller
      · exact ⟨c, rfl, hu⟩
      · simp [hu] at hchanged

/-- C10 witness: cycle 1 is owned by user 2; caller 3 gets 403 and the
store (cycle row and its symptom row) is unchanged. -/
theorem delete_forbidden_leaves_store_witness :
    deleteCycleAction ⟨[⟨1, 2⟩], [⟨5, 1⟩]⟩ 3 1 =
      (.forbidden403, ⟨[⟨1, 2⟩], [⟨5, 1⟩]⟩) :=
  (delete_forbidden_leaves_store ⟨[⟨1, 2⟩], [⟨5, 1⟩]⟩ 3 1).1 ⟨1, 2⟩ (by decide) (by decide)

/-- C1: for a cycle with valid dates, the ovulation date is the start date
plus 14 days; a date is in the fertile window iff it lies in the inclusive
range `[ovulation − 5, ovulation]`; the ovulation date itself classifies as
`isOvulation = true, isFertile = false` (ovulation clears the fertile
flag); any other date of the window classifies as
`isFertile = true, isOvulation = false`. -/
theorem ovulation_and_fertile_window (id s e d : ℤ) :
    calculateOvulationDate ⟨id, some s, some e⟩ = some (s + 14) ∧
    (((getDayInfo d [⟨id, some s, some e⟩]).isFertile = true ∨
      (getDayInfo d [⟨id, some s, some e⟩]).isOvulation = true) ↔
      ((s + 14) - 5 ≤ d ∧ d ≤ s + 14)) ∧
    (d = s + 14 →
      (getDayInfo d [⟨id, some s, some e⟩]).isOvulation = true ∧
      (getDayInfo d [⟨id, some s, some e⟩]).isFertile = false) ∧
    ((s + 14) - 5 ≤ d → d ≤ s + 14 → d ≠ s + 14 →
      (getDayInfo d [⟨id, some s, some e⟩]).isFertile = true ∧
      (getDayInfo d [⟨id, some s, some e⟩]).isOvulation = false) := by
  refine ⟨rfl, ?_, ?_, ?_⟩ <;>
  · simp only [getDayInfo, List.foldl_cons, List.foldl_nil, getDayInfoStep,
      calculateOvulationDate, isSameDay, beq_iff_eq]
    split_ifs <;> simp_all <;> omega

/-- C1 witness: for a cycle starting 2025-04-01, the ovulation date is
2025-04-15, the fertile window starts at 2025-04-10, 2025-04-15 classifies
as ovulation-not-fertile and 2025-04-12 as fertile-not-ovulation. -/
theorem ovulation_and_fertile_window_witness :
    calculateOvulationDate ⟨1, some (jsDate 2025 3 1), some (jsDate 2025 3 5)⟩ =
      some (jsDate 2025 3 15) ∧
    (jsDate 2025 3 1 + 14) - 5 = jsDate 2025 3 10 ∧
    (getDayInfo (jsDate 2025 3 15)
      [⟨1, some (jsDate 2025 3 1), some (jsDate 2025 3 5)⟩]).isOvulation = true ∧
    (getDayInfo (jsDate 2025 3 15)
      [⟨1, some (jsDate 2025 3 1), some (jsDate 2025 3 5)⟩]).isFertile = false ∧
    (getDayInfo (jsDate 2025 3 12)
      [⟨1, some (jsDate 2025 3 1), some (jsDate 2025 3 5)⟩]).isFertile = true ∧
    (getDayInfo (jsDate 2025 3 12)
      [⟨1, some (jsDate 2025 3 1), some (jsDate 2025 3 5)⟩]).isOvulation = false := by
  have h15 := ovulation_and_fertile_window 1 (jsDate 2025 3 1) (jsDate 2025 3 5)
    (jsDate 2025 3 15)
  have h12 := ovulation_and_fertile_window 1 (jsDate 2025 3 1) (jsDate 2025 3 5)
    (jsDate 2025 3 12)
  have hov := h15.2.2.1 (by decide)
  have hfw := h12.2.2.2 (by decide) (by decide) (by decide)
  exact ⟨h15.1.trans (by decide), by decide, hov.1, hov.2, hfw.1, hfw.2⟩

/-- Does this cycle's (valid) period range contain the date?  The period
check performed for one scanned cycle inside `getDayInfo`. -/
def periodMatches (d : ℤ) (c : CycleWithSymptoms) : Bool :=
  match c.startDate, c.endDate with
  | some s, some e => decide (s ≤ d ∧ d ≤ e)
  | _, _ => false

lemma getDayInfoStep_cycleId_of_match (d : ℤ) (r : DayInfo) (c : CycleWithSymptoms)
    (h : periodMatches d c = true) :
    (getDayInfoStep d r c).cycleId = some c.cycleId := by
  obtain ⟨id, sd, ed⟩ := c
  cases sd <;> cases ed <;> simp_all [periodMatches, getDayInfoStep, calculateOvulationDate] <;>
  split_ifs <;> simp_all

lemma getDayInfoStep_cycleId_of_no_match (d : ℤ) (r : DayInfo) (c : CycleWithSymptoms)
    (x : ℤ) (h : periodMatches d c = false) (hr : r.cycleId = some x) :
    (getDayInfoStep d r c).cycleId = some x := by
  obtain ⟨id, sd, ed⟩ := c
  cases sd <;> cases ed <;> simp_all [periodMatches, getDayInfoStep, calculateOvulationDate] <;>
  split_ifs <;> simp_all <;> omega

lemma foldl_cycleId_of_no_match (d : ℤ) (x : ℤ) :
    ∀ (cycles : List CycleWithSymptoms) (r : DayInfo),
      (∀ a ∈ cycles, periodMatches d a = false) → r.cycleId = some x →
      (cycles.foldl (getDayInfoStep d) r).cycleId = some x := by
  intro cycles
  induction cycles with
  | nil => intro r _ hr; simpa using hr
  | cons a tl ih =>
    intro r hall hr
    rw [List.foldl_cons]
    exact ih _ (fun b hb => hall b (List.mem_cons_of_mem a hb))
      (getDayInfoStep_cycleId_of_no_match d r a x (hall a (List.mem_cons_self a tl)) hr)

lemma foldl_cycleId_last_match (d : ℤ) :
    ∀ (cycles : List CycleWithSymptoms) (r : DayInfo) (c : CycleWithSymptoms),
      (cycles.filter (periodMatches d)).getLast? = some c →
      (cycles.foldl (getDayInfoStep d) r).cycleId = some c.cycleId := by
  intro cycles
  induction cycles with
  | nil => intro r c h; simp at h
  | cons a tl ih =>
    intro r c h
    rw [List.foldl_cons]
    by_cases hpm : periodMatches d a
    · rw [List.filter_cons_of_pos hpm] at h
      rcases hft : tl.filter (periodMatches d) with _ | ⟨b, bs⟩
      · rw [hft] at h
        have hac : a = c := by simpa using h
        subst hac
        exact foldl_cycleId_of_no_match d a.cycleId tl _
          (fun b hb => Bool.not_eq_true _ ▸ List.filter_eq_nil_iff.mp hft b hb)
          (getDayInfoStep_cycleId_of_match d r a hpm)
      · rw [hft, List.getLast?_cons_cons, ← hft] at h
        exact ih _ c h
    · rw [List.filter_cons_of_neg hpm] at h
      exact ih _ c h

/-- C6 counterexample: date 1970-01-06 lies in the period ranges of both
scanned cycles (ids 1 then 2); the classification reports cycle id 2, the
last match, not the first match's id 1. -/
theorem first_match_cycleId_counterexample :
    (getDayInfo 5 [⟨1, some 0, some 10⟩, ⟨2, some 0, some 10⟩]).cycleId = some 2 ∧
    ¬ (getDayInfo 5 [⟨1, some 0, some 10⟩, ⟨2, some 0, some 10⟩]).cycleId = some 1 := by
  decide

/-- C6 amended: when a date falls within the inclusive period range of more
than one scanned cycle, the classification reports the cycle id of the
last matching cycle scanned (each period match overwrites `cycleId`). -/
theorem last_match_governs_cycleId (d : ℤ) (cycles : List CycleWithSymptoms)
    (c : CycleWithSymptoms)
    (h : (cycles.filter (periodMatches d)).getLast? = some c) :
    (getDayInfo d cycles).cycleId = some c.cycleId :=
  foldl_cycleId_last_match d cycles _ c h

/-- C6 amended witness: with two overlapping cycles the reported id is the
id of the last matching cycle. -/
theorem last_match_governs_cycleId_witness :
    (getDayInfo 7 [⟨3, some 0, some 10⟩, ⟨4, some 2, some 9⟩]).cycleId = some 4 :=
  last_match_governs_cycleId 7 [⟨3, some 0, some 10⟩, ⟨4, some 2, some 9⟩]
    ⟨4, some 2, some 9⟩ (by decide)

instance : IsTotal StatCycle byStart :=
  ⟨fun a b => le_total a.startDate b.startDate⟩

instance : IsTrans StatCycle byStart :=
  ⟨fun _ _ _ hab hbc => le_trans hab hbc⟩

/-- Sorting the cycle records by start date and then reading off the start
dates is the same as sorting the start dates themselves. -/
lemma map_startDate_insertionSort (cycles : List StatCycle) :
    (List.insertionSort byStart cycles).map StatCycle.startDate =
      sortInts (cycles.map StatCycle.startDate) := by
  apply List.eq_of_perm_of_sorted (r := (· ≤ · : ℤ → ℤ → Prop))
  · exact ((List.perm_insertionSort byStart cycles).map _).trans
      (List.perm_insertionSort (· ≤ ·) _).symm
  · exact List.pairwise_map.mpr (List.sorted_insertionSort byStart cycles)
  · exact List.sorted_insertionSort _ _

/-- The consecutive start-date differences computed from the sorted records
are the consecutive differences of the sorted start-date list. -/
lemma diffs_eq (sorted : List StatCycle) :
    List.zipWith (fun c p => c.startDate - p.startDate) (sorted.drop 1) sorted =
      consecutiveDiffs (sorted.map StatCycle.startDate) := by
  simp only [consecutiveDiffs, ← List.map_tail, List.zipWith_map, List.drop_one]

/-- C2: with fewer than 2 cycles the average cycle length is undefined;
with 2 or more it is the rounded arithmetic mean of the day-differences of
consecutive start dates after sorting ascending by start date (zero-length
intervals from duplicate start dates included). -/
theorem average_cycle_length (cycles : List StatCycle) :
    (cycles.length < 2 → (calculateStats cycles).2 = none) ∧
    (2 ≤ cycles.length →
      (calculateStats cycles).2 =
        some (meanRounded (consecutiveDiffs (sortInts (cycles.map StatCycle.startDate))))) := by
  constructor
  · intro h
    by_cases h0 : cycles.length = 0
    · simp [calculateStats, h0]
    · have h1 : ¬ 1 < cycles.length := by omega
      simp [calculateStats, h0, h1]
  · intro h
    have h0 : ¬ cycles.length = 0 := by omega
    have h1 : 1 < cycles.length := by omega
    simp only [calculateStats, if_neg h0, if_pos h1]
    rw [diffs_eq, map_startDate_insertionSort]
    rfl

/-- C2 witness: one cycle gives no average; three cycles with start dates
0, 28, 0 (two identical) give intervals `[0, 28]` whose zero entry is
counted: the mean is 14, not 28. -/
theorem average_cycle_length_witness :
    (calculateStats [⟨5, 9⟩]).2 = none ∧
    (calculateStats [⟨0, 0⟩, ⟨28, 30⟩, ⟨0, 1⟩]).2 = some 14 := by
  have h1 := (average_cycle_length [⟨5, 9⟩]).1 (by decide)
  have h2 := (average_cycle_length [⟨0, 0⟩, ⟨28, 30⟩, ⟨0, 1⟩]).2 (by decide)
  refine ⟨h1, h2.trans ?_⟩
  norm_num [meanRounded, consecutiveDiffs, sortInts, List.insertionSort, List.orderedInsert,
    jsRound, Int.floor_eq_iff]

/-- Rounding an integer-valued rational returns the integer. -/
lemma jsRound_intCast (x : ℤ) : jsRound (x : ℚ) = x := by
  rw [jsRound]
  apply Int.floor_eq_iff.mpr
  constructor <;> push_cast <;> linarith

/-- The rounded mean of a one-element list is its element. -/
lemma meanRounded_singleton (x : ℤ) : meanRounded [x] = x := by
  simp [meanRounded, jsRound_intCast]

/-- The average period length over a non-empty cycle list, as computed. -/
lemma calculateStats_fst (cycles : List StatCycle) (h : cycles ≠ []) :
    (calculateStats cycles).1 =
      some (meanRounded (cycles.map fun c => c.endDate - c.startDate + 1)) := by
  unfold calculateStats
  rw [if_neg (by simpa [List.length_eq_zero] using h)]
  rfl

/-- C3: the per-cycle period length is the day-difference of end and start
plus one (both boundary days included), and the average period length is
the rounded arithmetic mean of these per-cycle lengths; a single cycle's
average period length is exactly its inclusive length. -/
theorem average_period_length (cycles : List StatCycle) (s e : ℤ) :
    (cycles ≠ [] →
      (calculateStats cycles).1 =
        some (meanRounded (cycles.map fun c => c.endDate - c.startDate + 1))) ∧
    (calculateStats [⟨s, e⟩]).1 = some (e - s + 1) := by
  refine ⟨fun h => calculateStats_fst cycles h, ?_⟩
  rw [calculateStats_fst [⟨s, e⟩] (by simp)]
  simp [meanRounded_singleton]

/-- C3 witness: the cycle 2025-04-01 .. 2025-04-05 has period length 5. -/
theorem average_period_length_witness :
    (calculateStats [⟨jsDate 2025 3 1, jsDate 2025 3 5⟩]).1 = some 5 := by
  have h := (average_period_length [⟨jsDate 2025 3 1, jsDate 2025 3 5⟩]
    (jsDate 2025 3 1) (jsDate 2025 3 5)).2
  exact h.trans (by decide)

/-- The grid's leading-cell offset equals the spec's
"(weekday of the first day − 1) mod 7" with a Monday-started week. -/
lemma gridOffset_toNat (year month : ℤ) :
    (gridOffset year month).toNat =
      (((isoWeekday (jsDate year month 1) - 1) % 7)).toNat := by
  simp only [gridOffset, isoWeekday, getDay]
  split_ifs <;> omega

/-- C5: the generated grid consists of `(weekday of the 1st − 1) mod 7`
leading empty cells, one cell per day of the month, and trailing empty
cells, and its total cell count is a multiple of 7. -/
theorem grid_shape (year month : ℤ) (cycles : List CycleWithSymptoms) (today : ℤ) :
    (generateCalendarGrid year month cycles today).length % 7 = 0 ∧
    ∃ pad : ℕ,
      generateCalendarGrid year month cycles today =
        List.replicate ((((isoWeekday (jsDate year month 1) - 1) % 7)).toNat) createEmptyCell
          ++ (List.range (daysInMonth year month).toNat).map
              (fun (i : ℕ) => mkDayCell cycles today year month ((i : ℤ) + 1))
          ++ List.replicate pad createEmptyCell := by
  constructor
  · simp only [generateCalendarGrid, List.length_append, List.length_replicate,
      List.length_map, List.length_range]
    omega
  · refine ⟨((gridOffset year month).toNat + (daysInMonth year month).toNat + 6) / 7 * 7
      - ((gridOffset year month).toNat + (daysInMonth year month).toNat), ?_⟩
    simp only [generateCalendarGrid]
    rw [gridOffset_toNat]

end Greta
